import Mathlib

/-!
Shallow embedding of the node-management core of `v2ray_command.py`:
link decoding, region inference, node validation, latency statistics,
ranking, configuration synthesis (direct / chained), snapshot saving and
the apply/validate/rollback state machine.

Python dictionaries holding JSON-shaped documents are modelled by the
`JVal` inductive; Python `dict.get(k)` / `dict.get(k, d)` lookups on node
records are modelled by `Option` fields (with `none` for an absent key)
read through `Option.getD`.
-/

namespace V2ray

/-- JSON-like values: the shape of the Python dict/list/str/int/bool/None
documents built and consumed by the tool. -/
inductive JVal where
  | null : JVal
  | bool : Bool → JVal
  | num : Int → JVal
  | str : String → JVal
  | arr : List JVal → JVal
  | obj : List (String × JVal) → JVal
  deriving Repr

/-- Key lookup in a JSON object (Python `d[k]` / `d.get(k)`), first match. -/
def jGet : JVal → String → Option JVal
  | .obj kvs, k => kvs.lookup k
  | _, _ => none

/-- Key assignment inside an association list: Python `d[k] = v` keeps the
position of an existing key and appends a missing one at the end. -/
def setKey : List (String × JVal) → String → JVal → List (String × JVal)
  | [], k, v => [(k, v)]
  | (k0, v0) :: rest, k, v =>
      if k0 = k then (k, v) :: rest else (k0, v0) :: setKey rest k v

/-- Key assignment on a JSON object (Python `d[k] = v`). -/
def jSet : JVal → String → JVal → JVal
  | .obj kvs, k, v => .obj (setKey kvs k v)
  | j, _, _ => j

/-- A Python value that may be `None` rendered into JSON. -/
def optStr : Option String → JVal
  | some s => .str s
  | none => .null

/-- A Python integer that may be `None` rendered into JSON. -/
def optNum : Option Int → JVal
  | some n => .num n
  | none => .null

/-- `DEFAULT_UUID` from the source. -/
def DEFAULT_UUID : String := "39a279a5-55bb-3a27-ad9b-6ec81ff5779a"

/-- A node record as the Python code passes it around: a dict whose keys may
be absent (`none`).  Fields cover every key read by the functions embedded
here (`generate_v2ray_config`, `test_all_nodes.is_valid_node`). -/
structure Node where
  name : Option String := none
  server : Option String := none
  port : Option Int := none
  protocol : Option String := none
  uuid : Option String := none
  alterId : Option Int := none
  security : Option String := none
  network : Option String := none
  tls : Option String := none
  sni : Option String := none
  host : Option String := none
  path : Option String := none
  flow : Option String := none
  region : Option String := none
  deriving Repr, DecidableEq

/-- The static (secondary) proxy configuration dict: keys may be absent. -/
structure StaticProxy where
  server : Option String := none
  port : Option Int := none
  username : Option String := none
  password : Option String := none
  protocol : Option String := none
  deriving Repr, DecidableEq

/-- The per-protocol outbound object built by the first half of
`generate_v2ray_config` (vmess / vless / default branches). -/
def protocolOutbound (node : Node) (server : String) (port : Int) : JVal :=
  if node.protocol = some "vmess" then
    .obj [("protocol", .str "vmess"),
          ("settings", .obj [("vnext", .arr [.obj [
              ("address", .str server),
              ("port", .num port),
              ("users", .arr [.obj [
                  ("id", .str (node.uuid.getD DEFAULT_UUID)),
                  ("alterId", .num (node.alterId.getD 0)),
                  ("security", .str (node.security.getD "auto"))]])]])]),
          ("streamSettings", .obj [("network", .str (node.network.getD "tcp"))])]
  else if node.protocol = some "vless" then
    .obj [("protocol", .str "vless"),
          ("settings", .obj [("vnext", .arr [.obj [
              ("address", .str server),
              ("port", .num port),
              ("users", .arr [.obj [
                  ("id", .str (node.uuid.getD DEFAULT_UUID)),
                  ("encryption", .str "none"),
                  ("flow", .str (node.flow.getD ""))]])]])]),
          ("streamSettings", .obj [("network", .str (node.network.getD "tcp"))])]
  else
    .obj [("protocol", .str "vmess"),
          ("settings", .obj [("vnext", .arr [.obj [
              ("address", .str server),
              ("port", .num port),
              ("users", .arr [.obj [
                  ("id", .str (node.uuid.getD DEFAULT_UUID)),
                  ("alterId", .num 0),
                  ("security", .str "auto")]])]])]),
          ("streamSettings", .obj [("network", .str "tcp")])]

/-- The TLS overlay: mutates `outbound["streamSettings"]` when
`node.get("tls") in ["tls", "xtls"]`. -/
def applyTlsSettings (node : Node) (server : String) (outbound : JVal) : JVal :=
  if node.tls = some "tls" ∨ node.tls = some "xtls" then
    let ss := (jGet outbound "streamSettings").getD (.obj [])
    let ss := jSet ss "security" (optStr node.tls)
    let ss := jSet ss "tlsSettings" (.obj [
        ("serverName", .str (node.sni.getD server)),
        ("allowInsecure", .bool false)])
    jSet outbound "streamSettings" ss
  else outbound

/-- The websocket overlay: mutates `outbound["streamSettings"]` when
`node.get("network") == "ws"`. -/
def applyWsSettings (node : Node) (server : String) (outbound : JVal) : JVal :=
  if node.network = some "ws" then
    let ss := (jGet outbound "streamSettings").getD (.obj [])
    let ss := jSet ss "wsSettings" (.obj [
        ("path", .str (node.path.getD "/")),
        ("headers", .obj [("Host", .str (node.host.getD server))])])
    jSet outbound "streamSettings" ss
  else outbound

/-- The static-proxy outbound of chained mode.  The Python builds the same
`servers` block in both the socks5 and the http/https branch. -/
def staticProxyOutbound (cfg : StaticProxy) : JVal :=
  .obj [("tag", .str "static-proxy"),
        ("protocol", .str (if cfg.protocol = some "socks5" then "socks" else "http")),
        ("settings", .obj [("servers", .arr [.obj [
            ("address", optStr cfg.server),
            ("port", optNum cfg.port),
            ("users", if (cfg.username.getD "") ≠ "" then
                .arr [.obj [
                    ("user", .str (cfg.username.getD "")),
                    ("pass", .str (cfg.password.getD ""))]]
              else .arr [])]])]),
        ("proxySettings", .obj [("tag", .str "proxy-node")])]

/-- The two fixed local inbound listeners (SOCKS on 10808, HTTP on 10809). -/
def inboundsJ : JVal :=
  .arr [.obj [("port", .num 10808),
              ("protocol", .str "socks"),
              ("settings", .obj [("auth", .str "noauth"), ("udp", .bool true)])],
        .obj [("port", .num 10809),
              ("protocol", .str "http"),
              ("settings", .obj [])]]

/-- The single routing rule emitted in chained mode. -/
def chainedRule : JVal :=
  .obj [("type", .str "field"),
        ("network", .str "tcp,udp"),
        ("outboundTag", .str "static-proxy")]

/-- `generate_v2ray_config(node, proxy_mode, static_proxy_config)`.
Reading `node["server"]` / `node["port"]` raises `KeyError` on a missing
key, which escapes the function: that fallible access is the `none` case.
A falsy `static_proxy_config` (the `none` case) falls through to the direct
branch, exactly like `if proxy_mode == "chained" and static_proxy_config`. -/
def generate_v2ray_config (node : Node) (proxy_mode : String)
    (static_proxy_config : Option StaticProxy) : Option JVal :=
  match node.server, node.port with
  | some server, some port =>
    let outbound := protocolOutbound node server port
    let outbound := applyTlsSettings node server outbound
    let outbound := applyWsSettings node server outbound
    match static_proxy_config with
    | some cfg =>
      if proxy_mode = "chained" then
        some (.obj [("log", .obj [("loglevel", .str "warning")]),
                    ("inbounds", inboundsJ),
                    ("outbounds", .arr [jSet outbound "tag" (.str "proxy-node"),
                                        staticProxyOutbound cfg]),
                    ("routing", .obj [("rules", .arr [chainedRule])])])
      else
        some (.obj [("log", .obj [("loglevel", .str "warning")]),
                    ("inbounds", inboundsJ),
                    ("outbounds", .arr [outbound]),
                    ("routing", .obj [("rules", .arr [])])])
    | none =>
      some (.obj [("log", .obj [("loglevel", .str "warning")]),
                  ("inbounds", inboundsJ),
                  ("outbounds", .arr [outbound]),
                  ("routing", .obj [("rules", .arr [])])])
  | _, _ => none

/-! ### Lemmas about the JSON helpers -/

theorem lookup_setKey_self (l : List (String × JVal)) (k : String) (v : JVal) :
    (setKey l k v).lookup k = some v := by
  induction l with
  | nil => simp [setKey, List.lookup]
  | cons hd tl ih =>
    obtain ⟨k0, v0⟩ := hd
    by_cases h : k0 = k
    · simp [setKey, h, List.lookup]
    · simp only [setKey, if_neg h, List.lookup]
      have hbeq : (k == k0) = false := by
        simp [beq_iff_eq]
        exact fun he => h he.symm
      simp [hbeq, ih]

theorem protocolOutbound_obj (node : Node) (s : String) (p : Int) :
    ∃ l, protocolOutbound node s p = JVal.obj l := by
  unfold protocolOutbound
  split_ifs <;> exact ⟨_, rfl⟩

theorem applyTlsSettings_obj (node : Node) (s : String) (ob : JVal)
    (h : ∃ l, ob = JVal.obj l) : ∃ l, applyTlsSettings node s ob = JVal.obj l := by
  obtain ⟨l, rfl⟩ := h
  unfold applyTlsSettings
  split_ifs <;> exact ⟨_, rfl⟩

theorem applyWsSettings_obj (node : Node) (s : String) (ob : JVal)
    (h : ∃ l, ob = JVal.obj l) : ∃ l, applyWsSettings node s ob = JVal.obj l := by
  obtain ⟨l, rfl⟩ := h
  unfold applyWsSettings
  split_ifs <;> exact ⟨_, rfl⟩

/-- Shape of the chained-mode output once `node["server"]` and
`node["port"]` are present. -/
theorem generate_chained_eq (node : Node) (s : String) (p : Int) (cfg : StaticProxy)
    (hs : node.server = some s) (hp : node.port = some p) :
    generate_v2ray_config node "chained" (some cfg) =
      some (.obj [("log", .obj [("loglevel", .str "warning")]),
                  ("inbounds", inboundsJ),
                  ("outbounds", .arr
                    [jSet (applyWsSettings node s (applyTlsSettings node s
                        (protocolOutbound node s p))) "tag" (.str "proxy-node"),
                     staticProxyOutbound cfg]),
                  ("routing", .obj [("rules", .arr [chainedRule])])]) := by
  unfold generate_v2ray_config
  rw [hs, hp]
  rfl

/-- Claim C1: for every node (with its server and port present) and every
secondary proxy configuration, `generate_v2ray_config(node, "chained",
secondary)` yields exactly two outbounds — the node outbound tagged
`proxy-node` first and the secondary outbound tagged `static-proxy` second,
whose `proxySettings.tag` is `proxy-node` — and exactly one routing rule of
type `field` with network `tcp,udp` and outboundTag `static-proxy`. -/
theorem chained_config_two_outbounds_one_rule (node : Node) (s : String) (p : Int)
    (cfg : StaticProxy) (hs : node.server = some s) (hp : node.port = some p) :
    ∃ cfgJ ob1 ob2,
      generate_v2ray_config node "chained" (some cfg) = some cfgJ ∧
      jGet cfgJ "outbounds" = some (.arr [ob1, ob2]) ∧
      jGet ob1 "tag" = some (.str "proxy-node") ∧
      jGet ob2 "tag" = some (.str "static-proxy") ∧
      jGet ob2 "proxySettings" = some (.obj [("tag", .str "proxy-node")]) ∧
      jGet cfgJ "routing" =
        some (.obj [("rules", .arr [.obj [("type", .str "field"),
                                          ("network", .str "tcp,udp"),
                                          ("outboundTag", .str "static-proxy")]])]) := by
  obtain ⟨l, hl⟩ := applyWsSettings_obj node s _
    (applyTlsSettings_obj node s _ (protocolOutbound_obj node s p))
  refine ⟨_, _, _, generate_chained_eq node s p cfg hs hp, rfl, ?_, rfl, rfl, rfl⟩
  rw [hl]
  exact lookup_setKey_self l "tag" (.str "proxy-node")

theorem chained_config_two_outbounds_one_rule_witness :
    (({ server := some "example.com", port := some 443 } : Node).server
        = some "example.com") ∧
    (({ server := some "example.com", port := some 443 } : Node).port = some 443) ∧
    (∃ cfgJ ob1 ob2,
      generate_v2ray_config { server := some "example.com", port := some 443 }
          "chained" (some {}) = some cfgJ ∧
      jGet cfgJ "outbounds" = some (.arr [ob1, ob2]) ∧
      jGet ob1 "tag" = some (.str "proxy-node") ∧
      jGet ob2 "tag" = some (.str "static-proxy") ∧
      jGet ob2 "proxySettings" = some (.obj [("tag", .str "proxy-node")]) ∧
      jGet cfgJ "routing" =
        some (.obj [("rules", .arr [.obj [("type", .str "field"),
                                          ("network", .str "tcp,udp"),
                                          ("outboundTag", .str "static-proxy")]])])) :=
  ⟨rfl, rfl, chained_config_two_outbounds_one_rule _ "example.com" 443 {} rfl rfl⟩

/-- Claim C4 as stated is false: building a chained-mode configuration with
an empty (or absent) `secondary.server` raises no error at all — the
configuration is produced and handed on toward file I/O. -/
theorem chained_empty_server_no_error :
    (({ server := some "" } : StaticProxy).server = some "") ∧
    (generate_v2ray_config { server := some "1.2.3.4", port := some 443 }
        "chained" (some { server := some "" })).isSome = true ∧
    (({} : StaticProxy).server = none) ∧
    (generate_v2ray_config { server := some "1.2.3.4", port := some 443 }
        "chained" (some {})).isSome = true := by
  refine ⟨rfl, ?_, rfl, ?_⟩ <;> decide

/-- Claim C4 amended: `generate_v2ray_config` never validates
`secondary.server`.  In chained mode it returns a configuration (no error)
for every secondary configuration, in particular when the secondary server
is absent or the empty string; the static outbound simply embeds the
missing value. -/
theorem chained_no_secondary_server_check (node : Node) (s : String) (p : Int)
    (cfg : StaticProxy) (hs : node.server = some s) (hp : node.port = some p)
    (hbad : cfg.server = some "" ∨ cfg.server = none) :
    ∃ cfgJ ob1,
      generate_v2ray_config node "chained" (some cfg) = some cfgJ ∧
      jGet cfgJ "outbounds" = some (.arr [ob1, staticProxyOutbound cfg]) ∧
      jGet cfgJ "routing" = some (.obj [("rules", .arr [chainedRule])]) := by
  exact ⟨_, _, generate_chained_eq node s p cfg hs hp, rfl, rfl⟩

theorem chained_no_secondary_server_check_witness :
    (({ server := some "1.2.3.4", port := some 443 } : Node).server
        = some "1.2.3.4") ∧
    (({ server := some "1.2.3.4", port := some 443 } : Node).port = some 443) ∧
    (({ server := some "" } : StaticProxy).server = some "" ∨
      ({ server := some "" } : StaticProxy).server = none) ∧
    (∃ cfgJ ob1,
      generate_v2ray_config { server := some "1.2.3.4", port := some 443 }
          "chained" (some { server := some "" }) = some cfgJ ∧
      jGet cfgJ "outbounds" =
        some (.arr [ob1, staticProxyOutbound { server := some "" }]) ∧
      jGet cfgJ "routing" = some (.obj [("rules", .arr [chainedRule])])) :=
  ⟨rfl, rfl, Or.inl rfl,
    chained_no_secondary_server_check _ "1.2.3.4" 443 _ rfl rfl (Or.inl rfl)⟩

/-! ### Subscription snapshot store and the apply/validate/rollback machine -/

/-- The persisted subscription snapshot (`subscription.json`): the document
written by `save_subscription` and read by `load_subscription`.  The
`proxy_mode` / `static_proxy` keys are read with `get`-defaults, so they
are modelled as `Option`. -/
structure Snapshot where
  url : String
  nodes : List Node
  update_time : Int
  selected_index : Int
  proxy_mode : Option String
  static_proxy : Option StaticProxy
  deriving Repr

/-- The parsed `[static_proxy]` section of `subscription_url.ini`; each key
may be missing (configparser fallbacks). -/
structure IniStaticSection where
  server : Option String := none
  port : Option Int := none
  username : Option String := none
  password : Option String := none
  protocol : Option String := none
  deriving Repr

/-- The hard-coded `default_config` of `get_static_proxy_config`. -/
def defaultStaticProxy : StaticProxy :=
  { server := some "your.static.proxy.ip",
    port := some 443,
    username := some "",
    password := some "",
    protocol := some "http" }

/-- `get_static_proxy_config()`: `none` models a missing / unreadable ini
file or a file without a `[static_proxy]` section (both return the
default); otherwise each key falls back to the default value. -/
def get_static_proxy_config (ini : Option IniStaticSection) : StaticProxy :=
  match ini with
  | none => defaultStaticProxy
  | some sec =>
    { server := some (sec.server.getD "your.static.proxy.ip"),
      port := some (sec.port.getD 443),
      username := some (sec.username.getD ""),
      password := some (sec.password.getD ""),
      protocol := some (sec.protocol.getD "http") }

/-- The file-system state the store and applier touch: the subscription
snapshot and its `.backup`, the active `config.json` and its `.backup`,
plus a counter of service restarts triggered so far. -/
structure SysState where
  subscription_file : Option Snapshot := none
  subscription_backup : Option Snapshot := none
  config_file : Option JVal := none
  config_backup : Option JVal := none
  restarts : Nat := 0
  deriving Repr

/-- `load_subscription()`: reads the snapshot file (read/parse failures are
already folded into the `none` case of the modelled file content). -/
def load_subscription (st : SysState) : Option Snapshot :=
  st.subscription_file

/-- `save_subscription(url, nodes)`: backs up the existing snapshot file,
then overwrites it, preserving `proxy_mode` / `static_proxy` from the
existing snapshot and resetting `selected_index` to 0. -/
def save_subscription (ini : Option IniStaticSection) (st : SysState)
    (url : String) (nodes : List Node) (now : Int) : SysState :=
  let existing_config := load_subscription st
  let subscription_data : Snapshot :=
    { url := url,
      nodes := nodes,
      update_time := now,
      selected_index := 0,
      proxy_mode := some (match existing_config with
        | some e => e.proxy_mode.getD "direct"
        | none => "direct"),
      static_proxy := some (match existing_config with
        | some e => e.static_proxy.getD (get_static_proxy_config ini)
        | none => get_static_proxy_config ini) }
  { st with
    subscription_backup := match st.subscription_file with
      | some s => some s
      | none => st.subscription_backup,
    subscription_file := some subscription_data }

/-- Whether the pattern occurs at the head of the text. -/
def leadMatch : List Char → List Char → Bool
  | [], _ => true
  | _ :: _, [] => false
  | a :: as, b :: bs => a == b && leadMatch as bs

/-- Whether the pattern occurs contiguously anywhere in the text
(Python `pat in text` on strings). -/
def hasSubSeq (pat : List Char) : List Char → Bool
  | [] => leadMatch pat []
  | b :: bs => leadMatch pat (b :: bs) || hasSubSeq pat bs

/-- Truthiness of `result and "Configuration OK" in result` for the output
of the external validation command (`none` models a failed invocation). -/
def confirmsOK : Option String → Bool
  | none => false
  | some r => hasSubSeq "Configuration OK".toList r.toList

/-- `apply_node_config(node)`:
generate (a missing `node["server"]`/`node["port"]` raises, escaping before
any file change: the `none` result), back up the existing config file,
write the new config, run the external validation (`validate` models the
relay binary; `service_active_after` models the supervisor poll), and on a
non-confirming result restore the backup and report failure; the service is
only restarted after successful validation. -/
def apply_node_config (ini : Option IniStaticSection) (validate : JVal → Option String)
    (service_active_after : Bool) (st : SysState) (node : Node) :
    Option (Bool × SysState) :=
  let subscription := load_subscription st
  let proxy_mode := match subscription with
    | some s => s.proxy_mode.getD "direct"
    | none => "direct"
  let static_proxy_config := match subscription with
    | some s => s.static_proxy.getD (get_static_proxy_config ini)
    | none => get_static_proxy_config ini
  match generate_v2ray_config node proxy_mode (some static_proxy_config) with
  | none => none
  | some config =>
    let st1 : SysState := { st with
      config_backup := match st.config_file with
        | some c => some c
        | none => st.config_backup }
    let st2 : SysState := { st1 with config_file := some config }
    let result := validate config
    if confirmsOK result then
      let st3 : SysState := { st2 with restarts := st2.restarts + 1 }
      some (service_active_after, st3)
    else
      let st3 : SysState := { st2 with
        config_file := match st2.config_backup with
          | some b => some b
          | none => st2.config_file }
      some (false, st3)

/-- `generate_v2ray_config` succeeds whenever server and port are present. -/
theorem generate_isSome (node : Node) (s : String) (p : Int) (mode : String)
    (spc : Option StaticProxy) (hs : node.server = some s) (hp : node.port = some p) :
    ∃ cfgJ, generate_v2ray_config node mode spc = some cfgJ := by
  unfold generate_v2ray_config
  rw [hs, hp]
  cases spc with
  | none => exact ⟨_, rfl⟩
  | some cfg =>
    by_cases h : mode = "chained" <;> simp [h]

/-- Claim C2: whenever a prior configuration file exists and the external
validation does not confirm `Configuration OK`, `apply_node_config`
restores the backup (the config file afterwards equals its pre-apply
content), returns failure, and performs no service restart. -/
theorem apply_rollback (ini : Option IniStaticSection)
    (validate : JVal → Option String) (sa : Bool) (st : SysState) (node : Node)
    (s : String) (p : Int) (c : JVal)
    (hprior : st.config_file = some c)
    (hval : ∀ j, confirmsOK (validate j) = false)
    (hs : node.server = some s) (hp : node.port = some p) :
    ∃ st2, apply_node_config ini validate sa st node = some (false, st2) ∧
      st2.config_file = some c ∧ st2.restarts = st.restarts := by
  obtain ⟨cfgJ, hgen⟩ := generate_isSome node s p
    (match load_subscription st with
      | some s0 => s0.proxy_mode.getD "direct"
      | none => "direct")
    (some (match load_subscription st with
      | some s0 => s0.static_proxy.getD (get_static_proxy_config ini)
      | none => get_static_proxy_config ini)) hs hp
  refine ⟨{ st with config_backup := some c, config_file := some c }, ?_, rfl, rfl⟩
  simp only [apply_node_config]
  rw [hgen]
  simp [hval, hprior]

theorem apply_rollback_witness :
    (({ config_file := some (.obj []) } : SysState).config_file
        = some (.obj [])) ∧
    (∀ j : JVal, confirmsOK ((fun _ => (none : Option String)) j) = false) ∧
    (∃ st2,
      apply_node_config none (fun _ => none) true
          { config_file := some (.obj []) }
          { server := some "example.com", port := some 443 } =
        some (false, st2) ∧
      st2.config_file = some (.obj []) ∧
      st2.restarts = ({ config_file := some (.obj []) } : SysState).restarts) :=
  ⟨rfl, fun _ => rfl,
    apply_rollback none (fun _ => none) true _ _ "example.com" 443 _
      rfl (fun _ => rfl) rfl rfl⟩

/-- Claim C9: a save with a previous snapshot carries that snapshot's
`proxy_mode` and `static_proxy` over unchanged; with no previous snapshot,
`proxy_mode` is `direct` and the secondary proxy is the static-proxy
configuration loaded by `get_static_proxy_config` (whose value, absent an
ini file, is the hard-coded default). -/
theorem save_preserves_mode_and_secondary :
    (∀ (ini : Option IniStaticSection) (st : SysState) (url : String)
        (nodes : List Node) (now : Int) (prev : Snapshot) (m : String)
        (sp : StaticProxy),
      st.subscription_file = some prev → prev.proxy_mode = some m →
      prev.static_proxy = some sp →
      ∃ d, (save_subscription ini st url nodes now).subscription_file = some d ∧
        d.proxy_mode = some m ∧ d.static_proxy = some sp) ∧
    (∀ (ini : Option IniStaticSection) (st : SysState) (url : String)
        (nodes : List Node) (now : Int),
      st.subscription_file = none →
      ∃ d, (save_subscription ini st url nodes now).subscription_file = some d ∧
        d.proxy_mode = some "direct" ∧
        d.static_proxy = some (get_static_proxy_config ini)) ∧
    get_static_proxy_config none = defaultStaticProxy := by
  refine ⟨?_, ?_, rfl⟩
  · intro ini st url nodes now prev m sp hprev hm hsp
    refine ⟨{ url := url, nodes := nodes, update_time := now, selected_index := 0,
              proxy_mode := some m, static_proxy := some sp }, ?_, rfl, rfl⟩
    simp [save_subscription, load_subscription, hprev, hm, hsp]
  · intro ini st url nodes now hnone
    refine ⟨{ url := url, nodes := nodes, update_time := now, selected_index := 0,
              proxy_mode := some "direct",
              static_proxy := some (get_static_proxy_config ini) }, ?_, rfl, rfl⟩
    simp [save_subscription, load_subscription, hnone]

/-- A sample previous snapshot used by the save-subscription witness. -/
def sampleSnap : Snapshot :=
  { url := "u", nodes := [], update_time := 1, selected_index := 3,
    proxy_mode := some "chained", static_proxy := some { server := some "s" } }

/-- A sample system state holding `sampleSnap`. -/
def sampleState : SysState := { subscription_file := some sampleSnap }

theorem save_preserves_mode_and_secondary_witness :
    (sampleState.subscription_file = some sampleSnap) ∧
    (sampleSnap.proxy_mode = some "chained") ∧
    (sampleSnap.static_proxy = some { server := some "s" }) ∧
    (∃ d, (save_subscription none sampleState "u2" [] 5).subscription_file
        = some d ∧
      d.proxy_mode = some "chained" ∧
      d.static_proxy = some { server := some "s" }) ∧
    (∃ d, (save_subscription none {} "u2" [] 5).subscription_file = some d ∧
      d.proxy_mode = some "direct" ∧
      d.static_proxy = some (get_static_proxy_config none)) :=
  ⟨rfl, rfl, rfl,
    save_preserves_mode_and_secondary.1 none sampleState "u2" [] 5 sampleSnap
      "chained" { server := some "s" } rfl rfl rfl,
    save_preserves_mode_and_secondary.2.1 none {} "u2" [] 5 rfl⟩

/-- Claim C10: every save writes `selected_index = 0` into the snapshot,
unconditionally: any previously recorded node selection is discarded. -/
theorem save_resets_selected_index (ini : Option IniStaticSection) (st : SysState)
    (url : String) (nodes : List Node) (now : Int) :
    ∃ d, (save_subscription ini st url nodes now).subscription_file = some d ∧
      d.selected_index = 0 := by
  exact ⟨_, rfl, rfl⟩

/-! ### Latency probing statistics (`test_node_latency`) -/

/-- The result dict of `test_node_latency`. -/
structure ProbeResult where
  status : String
  latency : ℚ
  success_rate : ℚ
  deriving Repr, DecidableEq

/-- `test_node_latency(node, timeout, test_count)`: the loop makes one
connect attempt per entry; `some d` models a successful connect whose
wall-clock duration (already scaled to milliseconds) is `d`, `none` a
failed or timed-out one.  The list length is `test_count`. -/
def test_node_latency (attempts : List (Option ℚ)) : ProbeResult :=
  let latencies := attempts.filterMap id
  let test_count := attempts.length
  if latencies ≠ [] then
    { status := "online",
      latency := latencies.sum / latencies.length,
      success_rate := (latencies.length : ℚ) / test_count * 100 }
  else
    { status := "offline",
      latency := 9999,
      success_rate := 0 }

/-- Claim C3 as stated is false: with one attempt that succeeds, the code
reports `success_rate = 100`, not the claimed fraction `1`, and the value
does not lie in `[0,1]`. -/
theorem success_rate_is_percentage :
    (test_node_latency [some 10]).success_rate = 100 ∧
    ((100 : ℚ) ≠ 1 / 1) ∧
    ¬ (test_node_latency [some 10]).success_rate ≤ 1 := by
  have h : (test_node_latency [some 10]).success_rate = 100 := by
    simp [test_node_latency]
  refine ⟨h, by norm_num, ?_⟩
  rw [h]
  norm_num

/-- Claim C3 amended: `success_rate` is the success fraction scaled to a
percentage — `successes / attempts * 100`, lying in `[0,100]`; the status
is `offline` exactly when no attempt succeeded; with at least one success
the latency is the arithmetic mean of the successful durations, and with
none it is the sentinel 9999. -/
theorem probe_result_invariants (attempts : List (Option ℚ))
    (h : attempts.length ≠ 0) :
    (test_node_latency attempts).success_rate =
      ((attempts.filterMap id).length : ℚ) / attempts.length * 100 ∧
    0 ≤ (test_node_latency attempts).success_rate ∧
    (test_node_latency attempts).success_rate ≤ 100 ∧
    ((test_node_latency attempts).status = "offline" ↔
      (attempts.filterMap id).length = 0) ∧
    ((attempts.filterMap id).length ≠ 0 →
      (test_node_latency attempts).latency =
        (attempts.filterMap id).sum / (attempts.filterMap id).length) ∧
    ((attempts.filterMap id).length = 0 →
      (test_node_latency attempts).latency = 9999) := by
  have hlen : (attempts.filterMap id).length ≤ attempts.length :=
    List.length_filterMap_le id attempts
  have hn : (0 : ℚ) < attempts.length := by
    exact_mod_cast Nat.pos_of_ne_zero h
  by_cases hemp : attempts.filterMap id = []
  · have h0 : (attempts.filterMap id).length = 0 := by simp [hemp]
    refine ⟨?_, ?_, ?_, ?_, ?_, ?_⟩ <;>
      simp [test_node_latency, hemp, h0]
  · have h0 : (attempts.filterMap id).length ≠ 0 := by
      simpa [List.length_eq_zero] using hemp
    have hkpos : (0 : ℚ) < (attempts.filterMap id).length := by
      exact_mod_cast Nat.pos_of_ne_zero h0
    have hfrac : ((attempts.filterMap id).length : ℚ) / attempts.length ≤ 1 := by
      rw [div_le_one hn]
      exact_mod_cast hlen
    refine ⟨?_, ?_, ?_, ?_, ?_, ?_⟩
    · simp [test_node_latency, hemp]
    · simp only [test_node_latency, if_pos hemp]
      positivity
    · simp only [test_node_latency, if_pos hemp]
      calc ((attempts.filterMap id).length : ℚ) / attempts.length * 100
          ≤ 1 * 100 := by
            exact mul_le_mul_of_nonneg_right hfrac (by norm_num)
        _ = 100 := by norm_num
    · constructor
      · intro hst
        exfalso
        have : (test_node_latency attempts).status = "online" := by
          simp [test_node_latency, hemp]
        rw [this] at hst
        exact absurd hst (by decide)
      · intro hk
        exact absurd hk h0
    · intro _
      simp [test_node_latency, hemp]
    · intro hk
      exact absurd hk h0

theorem probe_result_invariants_witness :
    ([some (20 : ℚ), none, some 30].length ≠ 0) ∧
    ((test_node_latency [some (20 : ℚ), none, some 30]).success_rate =
      (([some (20 : ℚ), none, some 30].filterMap id).length : ℚ) /
        [some (20 : ℚ), none, some 30].length * 100 ∧
    0 ≤ (test_node_latency [some (20 : ℚ), none, some 30]).success_rate ∧
    (test_node_latency [some (20 : ℚ), none, some 30]).success_rate ≤ 100 ∧
    ((test_node_latency [some (20 : ℚ), none, some 30]).status = "offline" ↔
      (([some (20 : ℚ), none, some 30].filterMap id).length = 0)) ∧
    ((([some (20 : ℚ), none, some 30].filterMap id).length ≠ 0) →
      (test_node_latency [some (20 : ℚ), none, some 30]).latency =
        ([some (20 : ℚ), none, some 30].filterMap id).sum /
          ([some (20 : ℚ), none, some 30].filterMap id).length) ∧
    ((([some (20 : ℚ), none, some 30].filterMap id).length = 0) →
      (test_node_latency [some (20 : ℚ), none, some 30]).latency = 9999)) :=
  ⟨by decide, probe_result_invariants [some 20, none, some 30] (by decide)⟩

/-! ### Node validation (`test_all_nodes.is_valid_node`) -/

/-- The metadata markers filtered out of subscription feeds. -/
def metadataMarkers : List String :=
  ["剩余流量", "过期时间", "traffic", "expire", "remaining"]

/-- `is_valid_node(node)` from `test_all_nodes`: drops entries whose
lower-cased name contains a metadata marker, or whose `server` / `port`
is falsy (absent, empty string, or zero). -/
def is_valid_node (node : Node) : Bool :=
  let node_name := (node.name.getD "").toLower
  if metadataMarkers.any (fun kw => hasSubSeq kw.toList node_name.toList) then
    false
  else if node.server.getD "" = "" || node.port.getD 0 = 0 then
    false
  else
    true

/-- The filtering pass of `test_all_nodes`. -/
def valid_nodes (nodes : List Node) : List Node :=
  nodes.filter is_valid_node

/-- Characterization of `is_valid_node`. -/
theorem is_valid_node_iff (x : Node) :
    is_valid_node x = true ↔
      (metadataMarkers.any
        (fun kw => hasSubSeq kw.toList ((x.name.getD "").toLower.toList))) = false ∧
      x.server.getD "" ≠ "" ∧ x.port.getD 0 ≠ 0 := by
  unfold is_valid_node
  by_cases h1 : (metadataMarkers.any
      (fun kw => hasSubSeq kw.toList ((x.name.getD "").toLower.toList))) = true
  · simp [h1]
  · rw [Bool.not_eq_true] at h1
    by_cases h2 : x.server.getD "" = ""
    · simp [h1, h2]
    · by_cases h3 : x.port.getD 0 = 0
      · simp [h1, h2, h3]
      · simp [h1, h2, h3]

/-- Claim C8: the valid-node filter is idempotent, and it retains exactly
the entries whose (lower-cased) name contains no metadata marker and that
have a non-empty server and a non-zero port. -/
theorem valid_nodes_idempotent_and_exact :
    (∀ xs : List Node, valid_nodes (valid_nodes xs) = valid_nodes xs) ∧
    (∀ (xs : List Node) (x : Node), x ∈ valid_nodes xs ↔
      x ∈ xs ∧
      (metadataMarkers.any
        (fun kw => hasSubSeq kw.toList ((x.name.getD "").toLower.toList))) = false ∧
      x.server.getD "" ≠ "" ∧ x.port.getD 0 ≠ 0) := by
  constructor
  · intro xs
    simp [valid_nodes, List.filter_filter]
  · intro xs x
    rw [valid_nodes, List.mem_filter, is_valid_node_iff]

/-! ### Link decoding (`infer_region`, `parse_vmess`, `parse_subscription`) -/

/-- The region keyword table of `infer_region`, in declaration order. -/
def region_keywords : List (String × List String) :=
  [("Hong Kong", ["hk", "hong kong", "hongkong", "香港"]),
   ("Japan", ["jp", "japan", "tokyo", "日本"]),
   ("Singapore", ["sg", "singapore", "新加坡"]),
   ("USA", ["us", "america", "usa", "美国"]),
   ("Korea", ["kr", "korea", "seoul", "韩国"]),
   ("Taiwan", ["tw", "taiwan", "台湾"]),
   ("Canada", ["ca", "canada", "加拿大"]),
   ("UK", ["uk", "britain", "london", "英国"]),
   ("Germany", ["de", "germany", "frankfurt", "德国"]),
   ("India", ["in", "india", "mumbai", "印度"]),
   ("Russia", ["ru", "russia", "moscow", "俄罗斯"])]

/-- `infer_region(name)`: first table entry one of whose keywords occurs in
the lower-cased name; `"Other"` when none matches. -/
def infer_region (name : String) : String :=
  let name_lower := name.toLower
  match region_keywords.find?
      (fun rk => rk.2.any (fun kw => hasSubSeq kw.toList name_lower.toList)) with
  | some rk => rk.1
  | none => "Other"

/-- Decimal digit accumulation for `int(...)` on a string. -/
def parseDigitsAux : List Char → Nat → Option Nat
  | [], acc => some acc
  | c :: cs, acc =>
      if c.isDigit then parseDigitsAux cs (acc * 10 + (c.toNat - '0'.toNat))
      else none

/-- A non-empty all-digit char sequence as a natural number. -/
def parseDigits : List Char → Option Nat
  | [] => none
  | c :: cs => parseDigitsAux (c :: cs) 0

/-- Python `int(...)` on a string: an optional sign followed by decimal
digits (the plain forms the subscription data uses). -/
def pyIntOfChars : List Char → Option Int
  | '-' :: cs => (parseDigits cs).map (fun n => -(n : Int))
  | '+' :: cs => (parseDigits cs).map (fun n => (n : Int))
  | cs => (parseDigits cs).map (fun n => (n : Int))

/-- Conversion applied by Python `int(...)` to the JSON values that can
appear here (strings parse as decimal integers; `None`, lists and dicts
raise). -/
def pyInt : JVal → Option Int
  | .num n => some n
  | .bool b => some (if b then 1 else 0)
  | .str s => pyIntOfChars s.toList
  | _ => none

/-- The node dict built by `parse_vmess`: raw JSON values for the
passthrough fields, converted integers for `port` / `alterId`, and the
derived region. -/
structure VmessNode where
  protocol : String
  name : JVal
  server : JVal
  port : Int
  uuid : JVal
  alterId : Int
  network : JVal
  tls : JVal
  sni : JVal
  type : JVal
  host : JVal
  path : JVal
  security : JVal
  alpn : JVal
  region : String
  original : String
  deriving Repr

/-- `parse_vmess(vmess_url)`.  `node_info` is the result of stripping the
scheme, base64-decoding and JSON-parsing the payload, modelled as the flat
key/value document; `none` is any decode/parse failure.  Every failure path
(including a non-integer `port`/`aid` and a non-string `ps`, whose
`.lower()` call in `infer_region` raises) is caught by the broad `except`
and returns `None` rather than raising. -/
def parse_vmess (vmess_url : String)
    (node_info : Option (List (String × JVal))) : Option VmessNode :=
  match node_info with
  | none => none
  | some info =>
    match pyInt ((info.lookup "port").getD (.num 443)),
          pyInt ((info.lookup "aid").getD (.num 0)),
          (info.lookup "ps").getD (.str "Unknown") with
    | some port, some aid, .str psName =>
      some { protocol := "vmess",
             name := .str psName,
             server := (info.lookup "add").getD .null,
             port := port,
             uuid := (info.lookup "id").getD .null,
             alterId := aid,
             network := (info.lookup "net").getD (.str "tcp"),
             tls := (info.lookup "tls").getD (.str ""),
             sni := (info.lookup "sni").getD ((info.lookup "add").getD .null),
             type := (info.lookup "type").getD (.str "none"),
             host := (info.lookup "host").getD (.str ""),
             path := (info.lookup "path").getD (.str ""),
             security := (info.lookup "scy").getD (.str "auto"),
             alpn := (info.lookup "alpn").getD (.str ""),
             region := infer_region psName,
             original := vmess_url }
    | _, _, _ => none

/-- Claim C6: on a payload that decodes to a JSON document (with a string
`ps`, and `port`/`aid` values convertible to integers), `parse_vmess`
returns the node with name from `ps` (default `Unknown`), server from
`add`, port from `port` as integer defaulting to 443, identity from `id`,
alter-id from `aid` defaulting to 0, transport from `net` defaulting to
`tcp`, security from `tls`, SNI from `sni` defaulting to the address, and
cipher from `scy` defaulting to `auto`; every decode/parse failure yields
the error result `none` instead of an exception. -/
theorem parse_vmess_field_mapping (url : String) (info : List (String × JVal))
    (ps : String) (p a : Int)
    (hps : (info.lookup "ps").getD (.str "Unknown") = .str ps)
    (hp : pyInt ((info.lookup "port").getD (.num 443)) = some p)
    (ha : pyInt ((info.lookup "aid").getD (.num 0)) = some a) :
    parse_vmess url (some info) =
      some { protocol := "vmess",
             name := .str ps,
             server := (info.lookup "add").getD .null,
             port := p,
             uuid := (info.lookup "id").getD .null,
             alterId := a,
             network := (info.lookup "net").getD (.str "tcp"),
             tls := (info.lookup "tls").getD (.str ""),
             sni := (info.lookup "sni").getD ((info.lookup "add").getD .null),
             type := (info.lookup "type").getD (.str "none"),
             host := (info.lookup "host").getD (.str ""),
             path := (info.lookup "path").getD (.str ""),
             security := (info.lookup "scy").getD (.str "auto"),
             alpn := (info.lookup "alpn").getD (.str ""),
             region := infer_region ps,
             original := url } ∧
    parse_vmess url none = none := by
  constructor
  · simp only [parse_vmess]
    rw [hps, hp, ha]
  · rfl

/-- The decoded JSON document of the spec scenario. -/
def scenarioInfo : List (String × JVal) :=
  [("ps", .str "HK-01"), ("add", .str "example.com"), ("port", .str "443"),
   ("id", .str "uuid-1234"), ("net", .str "ws"), ("tls", .str "tls")]

theorem parse_vmess_field_mapping_witness :
    ((scenarioInfo.lookup "ps").getD (.str "Unknown") = .str "HK-01") ∧
    (pyInt ((scenarioInfo.lookup "port").getD (.num 443)) = some 443) ∧
    (pyInt ((scenarioInfo.lookup "aid").getD (.num 0)) = some 0) ∧
    (parse_vmess "vmess://test" (some scenarioInfo) =
      some { protocol := "vmess",
             name := .str "HK-01",
             server := (scenarioInfo.lookup "add").getD .null,
             port := 443,
             uuid := (scenarioInfo.lookup "id").getD .null,
             alterId := 0,
             network := (scenarioInfo.lookup "net").getD (.str "tcp"),
             tls := (scenarioInfo.lookup "tls").getD (.str ""),
             sni := (scenarioInfo.lookup "sni").getD
               ((scenarioInfo.lookup "add").getD .null),
             type := (scenarioInfo.lookup "type").getD (.str "none"),
             host := (scenarioInfo.lookup "host").getD (.str ""),
             path := (scenarioInfo.lookup "path").getD (.str ""),
             security := (scenarioInfo.lookup "scy").getD (.str "auto"),
             alpn := (scenarioInfo.lookup "alpn").getD (.str ""),
             region := infer_region "HK-01",
             original := "vmess://test" } ∧
      parse_vmess "vmess://test" none = none) :=
  ⟨rfl, rfl, rfl,
    parse_vmess_field_mapping "vmess://test" scenarioInfo "HK-01" 443 0 rfl rfl rfl⟩

/-- Leading whitespace removed from a char sequence. -/
def dropLeadWs : List Char → List Char
  | [] => []
  | c :: cs => if c.isWhitespace then dropLeadWs cs else c :: cs

/-- Python `str.strip()`: whitespace removed from both ends. -/
def pyStrip (s : List Char) : List Char :=
  ((dropLeadWs s).reverse |> dropLeadWs).reverse

/-- The `vmess://` scheme as chars. -/
def schemeVmess : List Char := "vmess://".toList

/-- The `vless://` scheme as chars. -/
def schemeVless : List Char := "vless://".toList

/-- The `ss://` scheme as chars. -/
def schemeSs : List Char := "ss://".toList

/-- The per-line dispatch loop of `parse_subscription`, over the decoded
subscription body split into lines (as char sequences).  The vmess/vless
decoders are parameters (they wrap base64/URI decoding); the second
component collects the warning reports emitted for unsupported schemes. -/
def parse_subscription_lines {α : Type} (pv pl : List Char → Option α) :
    List (List Char) → List α × List String
  | [] => ([], [])
  | line :: rest =>
    let l := pyStrip line
    let acc := parse_subscription_lines pv pl rest
    if l = [] then acc
    else if leadMatch schemeVmess l then
      match pv l with
      | some n => (n :: acc.1, acc.2)
      | none => acc
    else if leadMatch schemeVless l then
      match pl l with
      | some n => (n :: acc.1, acc.2)
      | none => acc
    else if leadMatch schemeSs l then
      (acc.1, "Shadowsocks links not yet supported" :: acc.2)
    else acc

/-- Claim C7 as stated is false: a non-empty line whose scheme is neither
`vmess://` nor `vless://` (here `trojan://`) produces no report at all —
only `ss://` lines are reported; the line is indeed dropped from the node
sequence, but silently. -/
theorem unsupported_scheme_silently_dropped :
    (pyStrip "trojan://abc".toList ≠ []) ∧
    (leadMatch schemeVmess (pyStrip "trojan://abc".toList) = false) ∧
    (leadMatch schemeVless (pyStrip "trojan://abc".toList) = false) ∧
    parse_subscription_lines (fun _ => (none : Option Unit)) (fun _ => none)
      ["trojan://abc".toList] = ([], []) := by
  refine ⟨by decide, by decide, by decide, rfl⟩

/-- Claim C7 amended: unrecognized non-empty lines are never added to the
node sequence, but only `ss://` lines receive the explicit "not supported"
report; every other unrecognized scheme is silently ignored.  The node
list is exactly the per-line vmess/vless decodes and the report list is
exactly one warning per `ss://` line. -/
theorem subscription_line_dispatch {α : Type} (pv pl : List Char → Option α)
    (lines : List (List Char)) :
    parse_subscription_lines pv pl lines =
      (lines.filterMap (fun line =>
        let l := pyStrip line
        if l = [] then none
        else if leadMatch schemeVmess l then pv l
        else if leadMatch schemeVless l then pl l
        else none),
       lines.filterMap (fun line =>
        let l := pyStrip line
        if l = [] then none
        else if leadMatch schemeVmess l then none
        else if leadMatch schemeVless l then none
        else if leadMatch schemeSs l then
          some "Shadowsocks links not yet supported"
        else none)) := by
  induction lines with
  | nil => rfl
  | cons line rest ih =>
    simp only [parse_subscription_lines, List.filterMap_cons, ih]
    by_cases h1 : pyStrip line = []
    · simp [h1]
    · by_cases h2 : leadMatch schemeVmess (pyStrip line) = true
      · cases hn : pv (pyStrip line) <;> simp [h1, h2, hn]
      · by_cases h3 : leadMatch schemeVless (pyStrip line) = true
        · cases hn : pl (pyStrip line) <;> simp [h1, h2, h3, hn]
        · by_cases h4 : leadMatch schemeSs (pyStrip line) = true
          · simp [h1, h2, h3, h4]
          · simp [h1, h2, h3, h4]

/-! ### Ranking (`test_all_nodes` statistics section) -/

/-- A merged `{**node, **result}` record collected by `test_all_nodes`. -/
structure NodeResult where
  node : Node
  status : String
  latency : ℚ
  success_rate : ℚ
  deriving Repr, DecidableEq

/-- The `online_nodes` filter of `test_all_nodes`. -/
def online_of (results : List NodeResult) : List NodeResult :=
  results.filter (fun n => n.status == "online")

/-- Python `min(x :: xs, key=lambda r: r.latency)`: scan left to right,
replacing the candidate only on a strictly smaller key, so the first
minimum wins. -/
def pyMinByLatency (x : NodeResult) (xs : List NodeResult) : NodeResult :=
  xs.foldl (fun acc r => if r.latency < acc.latency then r else acc) x

/-- The best-node selection of `test_all_nodes`:
`min(online_nodes, key=lambda x: x["latency"])` when any node is online. -/
def best_node (results : List NodeResult) : Option NodeResult :=
  match online_of results with
  | [] => none
  | x :: xs => some (pyMinByLatency x xs)

/-- Modelled from the spec: "among `status=online` results, the best node
is the one with minimum `latency_ms`; ties broken by input order" — the
first online entry whose latency is a lower bound of all online
latencies. -/
def rank_spec (results : List NodeResult) : Option NodeResult :=
  let online := online_of results
  online.find? (fun r => online.all (fun s => decide (r.latency ≤ s.latency)))

/-- `b` splits `l` as `l1 ++ b :: l2` where `b` is a minimum of `l` and
every element before it is strictly larger. -/
def IsFirstMinOf (b : NodeResult) (l : List NodeResult) : Prop :=
  ∃ l1 l2, l = l1 ++ b :: l2 ∧ (∀ r ∈ l, b.latency ≤ r.latency) ∧
    (∀ r ∈ l1, b.latency < r.latency)

theorem pyMin_cons (x y : NodeResult) (ys : List NodeResult) :
    pyMinByLatency x (y :: ys) =
      pyMinByLatency (if y.latency < x.latency then y else x) ys := rfl

theorem pyMin_isFirstMin : ∀ (xs : List NodeResult) (x : NodeResult),
    IsFirstMinOf (pyMinByLatency x xs) (x :: xs) := by
  intro xs
  induction xs with
  | nil =>
    intro x
    exact ⟨[], [], rfl, by simp [pyMinByLatency], by simp⟩
  | cons y ys ih =>
    intro x
    rw [pyMin_cons]
    by_cases h : y.latency < x.latency
    · rw [if_pos h]
      obtain ⟨l1, l2, heq, hle, hlt⟩ := ih y
      have hby : (pyMinByLatency y ys).latency ≤ y.latency :=
        hle y (List.mem_cons_self y ys)
      refine ⟨x :: l1, l2, ?_, ?_, ?_⟩
      · rw [List.cons_append, ← heq]
      · intro r hr
        rcases List.mem_cons.mp hr with rfl | hr2
        · exact le_of_lt (lt_of_le_of_lt hby h)
        · exact hle r hr2
      · intro r hr
        rcases List.mem_cons.mp hr with rfl | hr2
        · exact lt_of_le_of_lt hby h
        · exact hlt r hr2
    · rw [if_neg h]
      have hxy : x.latency ≤ y.latency := le_of_not_lt h
      obtain ⟨l1, l2, heq, hle, hlt⟩ := ih x
      cases l1 with
      | nil =>
        rw [List.nil_append] at heq
        injection heq with hb hl2
        refine ⟨[], y :: ys, ?_, ?_, ?_⟩
        · rw [List.nil_append, ← hb]
        · intro r hr
          rcases List.mem_cons.mp hr with rfl | hr2
          · rw [← hb]
          · rcases List.mem_cons.mp hr2 with rfl | hr3
            · rw [← hb]
              exact hxy
            · exact hle r (List.mem_cons_of_mem x hr3)
        · intro r hr
          cases hr
      | cons a l1t =>
        rw [List.cons_append] at heq
        injection heq with ha hys
        have hbx : (pyMinByLatency x ys).latency < x.latency := by
          have := hlt a (List.mem_cons_self a l1t)
          rw [← ha] at this
          exact this
        refine ⟨x :: y :: l1t, l2, ?_, ?_, ?_⟩
        · rw [List.cons_append, List.cons_append, ← hys]
        · intro r hr
          rcases List.mem_cons.mp hr with rfl | hr2
          · exact le_of_lt hbx
          · rcases List.mem_cons.mp hr2 with rfl | hr3
            · exact le_of_lt (lt_of_lt_of_le hbx hxy)
            · exact hle r (List.mem_cons_of_mem x hr3)
        · intro r hr
          rcases List.mem_cons.mp hr with rfl | hr2
          · exact hbx
          · rcases List.mem_cons.mp hr2 with rfl | hr3
            · exact lt_of_lt_of_le hbx hxy
            · exact hlt r (List.mem_cons_of_mem a hr3)

theorem find?_append_of_first (p : NodeResult → Bool) (l1 : List NodeResult)
    (b : NodeResult) (l2 : List NodeResult)
    (h1 : ∀ r ∈ l1, p r = false) (hb : p b = true) :
    List.find? p (l1 ++ b :: l2) = some b := by
  induction l1 with
  | nil => simp [List.find?, hb]
  | cons a t ih =>
    have hpa : p a = false := h1 a (List.mem_cons_self a t)
    rw [List.cons_append, List.find?]
    rw [hpa]
    exact ih (fun r hr => h1 r (List.mem_cons_of_mem a hr))

theorem isFirstMin_find (b : NodeResult) (l : List NodeResult)
    (h : IsFirstMinOf b l) :
    l.find? (fun r => l.all (fun s => decide (r.latency ≤ s.latency))) = some b := by
  obtain ⟨l1, l2, heq, hle, hlt⟩ := h
  subst heq
  have hbmem : b ∈ l1 ++ b :: l2 :=
    List.mem_append_right l1 (List.mem_cons_self b l2)
  have hpb : ((l1 ++ b :: l2).all (fun s => decide (b.latency ≤ s.latency))) = true := by
    rw [List.all_eq_true]
    intro s hs
    exact decide_eq_true (hle s hs)
  have hpl1 : ∀ r ∈ l1,
      ((l1 ++ b :: l2).all (fun s => decide (r.latency ≤ s.latency))) = false := by
    intro r hr
    refine Bool.eq_false_iff.mpr ?_
    intro hall
    rw [List.all_eq_true] at hall
    have hrb := hall b hbmem
    rw [decide_eq_true_eq] at hrb
    exact absurd (lt_of_lt_of_le (hlt r hr) hrb) (lt_irrefl _)
  exact find?_append_of_first _ l1 b l2 hpl1 hpb

theorem best_eq_rank (results : List NodeResult) :
    best_node results = rank_spec results := by
  rcases h1 : online_of results with _ | ⟨x, xs⟩ <;>
    simp only [best_node, rank_spec, h1]
  · rfl
  · exact (isFirstMin_find _ _ (pyMin_isFirstMin xs x)).symm

theorem best_node_some (results : List NodeResult) (b : NodeResult)
    (h : best_node results = some b) :
    b ∈ results ∧ b.status = "online" ∧
      ∀ r ∈ results, r.status = "online" → b.latency ≤ r.latency := by
  rcases h1 : online_of results with _ | ⟨x, xs⟩ <;>
    simp only [best_node, h1] at h
  · cases h
  · obtain ⟨l1, l2, heq, hle, hlt⟩ := pyMin_isFirstMin xs x
    rw [Option.some.injEq] at h
    rw [h] at heq hle hlt
    have hbmem : b ∈ x :: xs := by
      rw [heq]
      exact List.mem_append_right l1 (List.mem_cons_self b l2)
    have hbon : b ∈ online_of results := by
      rw [h1]
      exact hbmem
    rw [online_of, List.mem_filter] at hbon
    refine ⟨hbon.1, by simpa using hbon.2, ?_⟩
    intro r hr hst
    have hron : r ∈ online_of results := by
      rw [online_of, List.mem_filter]
      exact ⟨hr, by simp [hst]⟩
    rw [h1] at hron
    exact hle r hron

theorem best_node_perm (results results2 : List NodeResult)
    (hperm : results.Perm results2)
    (huniq : ∀ r1 r2, r1 ∈ online_of results → r2 ∈ online_of results →
      (∀ s ∈ online_of results, r1.latency ≤ s.latency) →
      (∀ s ∈ online_of results, r2.latency ≤ s.latency) → r1 = r2) :
    best_node results = best_node results2 := by
  have hop : (online_of results).Perm (online_of results2) :=
    hperm.filter _
  rcases h1 : online_of results with _ | ⟨x, xs⟩
  · have h2 : online_of results2 = [] := by
      rw [h1] at hop
      exact (hop.symm).eq_nil
    simp only [best_node, h1, h2]
  · rcases h2 : online_of results2 with _ | ⟨y, ys⟩
    · rw [h1, h2] at hop
      cases hop.eq_nil
    · rw [h1, h2] at hop
      simp only [best_node, h1, h2]
      obtain ⟨l1, l2, heq, hle, hlt⟩ := pyMin_isFirstMin xs x
      obtain ⟨m1, m2, heq2, hle2, hlt2⟩ := pyMin_isFirstMin ys y
      have hb1mem : pyMinByLatency x xs ∈ x :: xs := by
        rw [heq]
        exact List.mem_append_right l1 (List.mem_cons_self _ l2)
      have hb2mem2 : pyMinByLatency y ys ∈ y :: ys := by
        rw [heq2]
        exact List.mem_append_right m1 (List.mem_cons_self _ m2)
      have hb2mem : pyMinByLatency y ys ∈ x :: xs := hop.mem_iff.mpr hb2mem2
      have hb2min : ∀ s ∈ x :: xs, (pyMinByLatency y ys).latency ≤ s.latency :=
        fun s hs => hle2 s (hop.mem_iff.mp hs)
      have heqb : pyMinByLatency x xs = pyMinByLatency y ys := by
        refine huniq _ _ ?_ ?_ ?_ ?_ <;> rw [h1]
        · exact hb1mem
        · exact hb2mem
        · exact hle
        · exact hb2min
      rw [heqb]

/-- Claim C5: the node `test_all_nodes` selects is an online entry of
minimum latency among the online entries; the selection equals the
spec-worded ranking (first online entry with minimum latency — stable
tie-break by input order); and for a result set with a unique minimum
among online entries, any permutation of the input yields the same
selection. -/
theorem best_node_ranking :
    (∀ results, best_node results = rank_spec results) ∧
    (∀ results b, best_node results = some b →
      b ∈ results ∧ b.status = "online" ∧
        ∀ r ∈ results, r.status = "online" → b.latency ≤ r.latency) ∧
    (∀ results results2, results.Perm results2 →
      (∀ r1 r2, r1 ∈ online_of results → r2 ∈ online_of results →
        (∀ s ∈ online_of results, r1.latency ≤ s.latency) →
        (∀ s ∈ online_of results, r2.latency ≤ s.latency) → r1 = r2) →
      best_node results = best_node results2) :=
  ⟨best_eq_rank, best_node_some, best_node_perm⟩

/-- A fast sample probe entry (latency 10). -/
def fastResult : NodeResult :=
  { node := {}, status := "online", latency := 10, success_rate := 100 }

/-- A slow sample probe entry (latency 20). -/
def slowResult : NodeResult :=
  { node := {}, status := "online", latency := 20, success_rate := 100 }

theorem best_node_ranking_witness :
    (best_node [fastResult, slowResult] = rank_spec [fastResult, slowResult]) ∧
    (best_node [fastResult, slowResult] = some fastResult →
      fastResult ∈ [fastResult, slowResult] ∧ fastResult.status = "online" ∧
        ∀ r ∈ [fastResult, slowResult], r.status = "online" →
          fastResult.latency ≤ r.latency) ∧
    ([fastResult, slowResult].Perm [slowResult, fastResult]) ∧
    (best_node [fastResult, slowResult] = best_node [slowResult, fastResult]) := by
  have hmem : ∀ r ∈ online_of [fastResult, slowResult],
      r = fastResult ∨ r = slowResult := by
    intro r hr
    rw [online_of, List.mem_filter] at hr
    simpa using hr.1
  have huniq : ∀ r1 r2, r1 ∈ online_of [fastResult, slowResult] →
      r2 ∈ online_of [fastResult, slowResult] →
      (∀ s ∈ online_of [fastResult, slowResult], r1.latency ≤ s.latency) →
      (∀ s ∈ online_of [fastResult, slowResult], r2.latency ≤ s.latency) →
      r1 = r2 := by
    have hfmem : fastResult ∈ online_of [fastResult, slowResult] := by
      rw [online_of, List.mem_filter]
      exact ⟨by simp, by rfl⟩
    intro r1 r2 h1 h2 hm1 hm2
    have e1 : r1 = fastResult := by
      rcases hmem r1 h1 with he | he
      · exact he
      · exfalso
        have := hm1 fastResult hfmem
        rw [he] at this
        revert this
        decide
    have e2 : r2 = fastResult := by
      rcases hmem r2 h2 with he | he
      · exact he
      · exfalso
        have := hm2 fastResult hfmem
        rw [he] at this
        revert this
        decide
    rw [e1, e2]
  refine ⟨best_node_ranking.1 [fastResult, slowResult],
    best_node_ranking.2.1 [fastResult, slowResult] fastResult,
    List.Perm.swap slowResult fastResult [],
    best_node_ranking.2.2 [fastResult, slowResult] [slowResult, fastResult]
      (List.Perm.swap slowResult fastResult []) huniq⟩

end V2ray
